import Mathlib

/-!
Shallow embedding of the display-server adapter layer of the leftwm tiling
window manager: the geometry model and dock-area test
(`leftwm-core/src/models/screen.rs`), the workspace-geometry resolver
(`TryFrom<&Workspace> for Screen`), and the Xlib display-event adapter
(`src/display_servers/xlib_display_server/mod.rs`).

Rust `i32` values are modelled as `Int`; overflow is outside the scope of the
properties below.  External collaborators (xrandr topology, xwrap attribute
queries, event translation) are modelled as explicit oracle data.  A Rust
panic (`unwrap` on a failed result) is modelled as `Option.none`.
-/

namespace Leftwm

/-- User-facing size hint (`models::Size`).  Its definition lies outside the
excerpted sources and the resolver never inspects it, only carries it, so it
is modelled as an opaque wrapper. -/
structure Size where
  raw : Int
deriving DecidableEq, Repr

/-- `models::WindowHandle`: the two constructors the excerpted code uses. -/
inductive WindowHandle where
  | MockHandle (n : Int)
  | XlibHandle (h : Nat)
deriving DecidableEq, Repr

/-- Screen bounding box (`BBox` in `screen.rs`). -/
structure BBox where
  x : Int
  y : Int
  width : Int
  height : Int
deriving DecidableEq, Repr

/-- `Screen` in `screen.rs`. -/
structure Screen where
  root : WindowHandle
  bbox : BBox
  wsid : Option Int
  max_window_width : Option Size
deriving DecidableEq, Repr

/-- The `DockArea` fields read by `Screen::contains_dock_area`. -/
structure DockArea where
  top : Int
  top_start_x : Int
  bottom : Int
  bottom_start_x : Int
  left : Int
  left_start_y : Int
  right : Int
  right_start_y : Int
deriving DecidableEq, Repr

/-- `Screen::new`. -/
def Screen.new (bbox : BBox) : Screen :=
  { root := WindowHandle.MockHandle 0
    bbox := bbox
    wsid := none
    max_window_width := none }

/-- `Screen::contains_point` (screen.rs lines 50-55). -/
def Screen.contains_point (s : Screen) (x y : Int) : Bool :=
  let bbox := s.bbox
  let max_x := bbox.x + bbox.width
  let max_y := bbox.y + bbox.height
  (decide (bbox.x ≤ x) && decide (x ≤ max_x)) &&
    (decide (bbox.y ≤ y) && decide (y ≤ max_y))

/-- `Screen::contains_dock_area` (screen.rs lines 58-73).  `screens_area` is a
pair; Rust `.0` is Lean `.1` and Rust `.1` is Lean `.2`. -/
def Screen.contains_dock_area (s : Screen) (dock_area : DockArea)
    (screens_area : Int × Int) : Bool :=
  if dock_area.top > 0 then
    s.contains_point dock_area.top_start_x dock_area.top
  else if dock_area.bottom > 0 then
    s.contains_point dock_area.bottom_start_x (screens_area.1 - dock_area.bottom)
  else if dock_area.left > 0 then
    s.contains_point dock_area.left dock_area.left_start_y
  else if dock_area.right > 0 then
    s.contains_point (screens_area.2 - dock_area.right) dock_area.right_start_y
  else
    false

/-- `config::Workspace` (workspace_config.rs), field order as in the source.
The `layouts` field is omitted: `Layout` is defined outside the excerpted
sources and no excerpted code reads it. -/
structure Workspace where
  x : Option Int
  y : Option Int
  height : Option Int
  width : Option Int
  id : Option Int
  output_name : Option String
  max_window_width : Option Size
deriving DecidableEq, Repr

/-- An xrandr `Monitor` as consumed by the resolver. -/
structure Monitor where
  name : String
  x : Int
  y : Int
  width_px : Int
  height_px : Int
deriving DecidableEq, Repr

/-- Resolver failure taxonomy.  The source produces `anyhow` errors with the
contexts given in the comments; the spec names them as below. -/
inductive ScreenError where
  /-- `context("could not open xrandr")` / a failing `monitors()` call. -/
  | TopologyUnavailable
  /-- `context("could not find monitor")`. -/
  | MonitorNotFound
  /-- the catch-all arm `Err(anyhow!("foo"))`. -/
  | AmbiguousWorkspaceConfig
deriving DecidableEq, Repr

/-- `TryFrom<&Workspace> for Screen::try_from` (screen.rs lines 76-121).
The live xrandr query is passed in as `topology`; `none` models a failing
`XHandle::open()` or `monitors()` call.  The `y` field reproduces the
source literally: `wsc.x.unwrap_or(monitor.y)`, i.e. it falls back from the
config's `x`, not its `y`. -/
def Screen.try_from (wsc : Workspace) (topology : Option (List Monitor)) :
    Except ScreenError Screen :=
  match wsc.output_name, wsc.x, wsc.y, wsc.width, wsc.height with
  | none, some x, some y, some width, some height =>
      Except.ok
        { root := WindowHandle.MockHandle 0
          wsid := wsc.id
          max_window_width := wsc.max_window_width
          bbox := { x := x, y := y, width := width, height := height } }
  | some name, _, _, _, _ =>
      match topology with
      | none => Except.error ScreenError.TopologyUnavailable
      | some monitors =>
          match monitors.find? (fun monitor => monitor.name == name) with
          | none => Except.error ScreenError.MonitorNotFound
          | some monitor =>
              Except.ok
                { root := WindowHandle.MockHandle 0
                  wsid := wsc.id
                  max_window_width := wsc.max_window_width
                  bbox := { x := wsc.x.getD monitor.x
                            y := wsc.x.getD monitor.y
                            width := wsc.width.getD monitor.width_px
                            height := wsc.height.getD monitor.height_px } }
  | _, _, _, _, _ => Except.error ScreenError.AmbiguousWorkspaceConfig

/-- Raw Xinerama screen info; `xw.get_screens()` items are converted through
`From<&XineramaScreenInfo> for Screen` (screen.rs lines 141-154). -/
structure XineramaScreenInfo where
  x_org : Int
  y_org : Int
  width : Int
  height : Int
deriving DecidableEq, Repr

/-- `From<&XineramaScreenInfo> for Screen` (screen.rs lines 141-154). -/
def Screen.from_xinerama (root : XineramaScreenInfo) : Screen :=
  { root := WindowHandle.MockHandle 0
    bbox := { height := root.height, width := root.width, x := root.x_org, y := root.y_org }
    wsid := none
    max_window_width := none }

/-- `utils::window::Window` as built by `Window::new(handle, name)`; only the
two constructor arguments matter to the excerpted code. -/
structure Window where
  handle : WindowHandle
  name : String
deriving DecidableEq, Repr

/-- `Window::new`. -/
def Window.new (handle : WindowHandle) (name : String) : Window :=
  { handle := handle, name := name }

/-- The `XWindowAttributes` fields read by `find_all_windows`. -/
structure XWindowAttributes where
  map_state : Int
  override_redirect : Int
deriving DecidableEq, Repr

/-- `event_queue::EventQueueItem`.  The excerpted adapter constructs only
`ScreenCreate` and `WindowCreate`; `OtherLifecycle` stands for the further
variants (destroy/configure) owned by the translation layer, which lies
outside the excerpted sources. -/
inductive EventQueueItem where
  | ScreenCreate (s : Screen)
  | WindowCreate (w : Window)
  | OtherLifecycle (tag : Nat)
deriving DecidableEq, Repr

/-- Oracle for the external collaborators behind `XWrap` and
`event_translate` (outside the excerpted sources), one field per query of
spec section 6.  `window_attrs h = none` models a per-window
`get_window_attrs` failure; `translate` is
`event_translate::from_xevent` applied to a raw `XEvent`, coded as `Nat`. -/
structure XWrap where
  screens : List XineramaScreenInfo
  all_windows : Except String (List Nat)
  window_attrs : Nat → Option XWindowAttributes
  transient_for : Nat → Option Nat
  window_name : Nat → String
  translate : Nat → Option EventQueueItem

/-- The eligibility decision inlined in `find_all_windows`
(mod.rs lines 73-79): the wildcard arm of the Rust `match` covers `None`. -/
def managed_window (transient : Option Nat) (attrs : XWindowAttributes) : Bool :=
  match transient with
  | some _ => decide (attrs.map_state = 2)
  | _ => decide (attrs.override_redirect ≤ 0) && decide (attrs.map_state = 2)

/-- The per-handle loop body of `find_all_windows` (mod.rs lines 70-85).
`xw.get_window_attrs(handle).unwrap()` panics when the query fails, which is
modelled as the whole enumeration returning `none`. -/
def find_windows_go (xw : XWrap) : List Nat → Option (List Window)
  | [] => some []
  | handle :: handles =>
      match xw.window_attrs handle with
      | none => none
      | some attrs =>
          match find_windows_go xw handles with
          | none => none
          | some rest =>
              if managed_window (xw.transient_for handle) attrs then
                some (Window.new (WindowHandle.XlibHandle handle)
                        (xw.window_name handle) :: rest)
              else
                some rest

/-- `XlibDisplayServer::find_all_windows` (mod.rs lines 66-92).  A failing
`get_all_windows` is logged and yields the empty accumulator; a failing
per-window attribute query panics (`none`). -/
def find_all_windows (xw : XWrap) : Option (List Window) :=
  match xw.all_windows with
  | Except.ok handles => find_windows_go xw handles
  | Except.error _ => some []

/-- `XlibDisplayServer::initial_events` (mod.rs lines 50-64): one
`ScreenCreate` per screen, then one `WindowCreate` per managed window. -/
def initial_events (xw : XWrap) : Option (List EventQueueItem) :=
  match find_all_windows xw with
  | none => none
  | some ws =>
      some (xw.screens.map (fun s => EventQueueItem.ScreenCreate (Screen.from_xinerama s))
        ++ ws.map (fun w => EventQueueItem.WindowCreate w))

/-- The process-wide `static SETUP: Once` (mod.rs line 11), the only mutable
state the adapter touches. -/
structure ProcessState where
  setup_done : Bool
deriving DecidableEq, Repr

/-- `XlibDisplayServer::get_next_events` (mod.rs lines 30-43) as a sequential
state transformer: `SETUP.call_once` runs `initial_events` only when the latch
is unset, then one raw event (`xevent`) is pulled and its translation, if any,
is appended. -/
def get_next_events (xw : XWrap) (xevent : Nat) (ps : ProcessState) :
    Option (List EventQueueItem × ProcessState) :=
  if ps.setup_done then
    some ((xw.translate xevent).toList, { setup_done := true })
  else
    match initial_events xw with
    | none => none
    | some boot =>
        some (boot ++ (xw.translate xevent).toList, { setup_done := true })

/-- A sequence of `get_next_events` calls, each on its own adapter oracle and
pulling its own raw event, threaded through the shared process state. -/
def runCalls : List (XWrap × Nat) → ProcessState →
    Option (List (List EventQueueItem) × ProcessState)
  | [], ps => some ([], ps)
  | c :: calls, ps =>
      match get_next_events c.1 c.2 ps with
      | none => none
      | some (batch, ps1) =>
          match runCalls calls ps1 with
          | none => none
          | some (batches, ps2) => some (batch :: batches, ps2)

/-! ## Theorems -/

/-- Claim C8: `contains_point` is true exactly on the inclusive rectangle
`[bbox.x, bbox.x+width] × [bbox.y, bbox.y+height]`, is a total function of
its integer inputs, and on bbox `{0,0,100,50}` accepts `(0,0)` and
`(100,50)` and rejects `(101,0)`. -/
theorem contains_point_spec :
    (∀ (s : Screen) (x y : Int),
      s.contains_point x y = true ↔
        (s.bbox.x ≤ x ∧ x ≤ s.bbox.x + s.bbox.width ∧
         s.bbox.y ≤ y ∧ y ≤ s.bbox.y + s.bbox.height)) ∧
    (Screen.new { x := 0, y := 0, width := 100, height := 50 }).contains_point 0 0 = true ∧
    (Screen.new { x := 0, y := 0, width := 100, height := 50 }).contains_point 100 50 = true ∧
    (Screen.new { x := 0, y := 0, width := 100, height := 50 }).contains_point 101 0 = false := by
  refine ⟨fun s x y => ?_, by decide, by decide, by decide⟩
  simp [Screen.contains_point, and_assoc]

/-- Claim C7: `contains_dock_area` tests the edges in the fixed order top,
bottom, left, right; the first edge with positive thickness alone decides the
result through a single `contains_point` call with the field selection of the
source (start coordinate plus either the thickness itself, for top/left, or
the `screens_area` component minus the thickness, for bottom/right), and no
edge decides when all thicknesses are nonpositive. -/
theorem contains_dock_area_spec :
    ∀ (s : Screen) (d : DockArea) (sa : Int × Int),
      (d.top > 0 →
        s.contains_dock_area d sa = s.contains_point d.top_start_x d.top ∧
        ∀ d2 : DockArea, d2.top = d.top → d2.top_start_x = d.top_start_x →
          s.contains_dock_area d2 sa = s.contains_dock_area d sa) ∧
      (¬ d.top > 0 → d.bottom > 0 →
        s.contains_dock_area d sa
          = s.contains_point d.bottom_start_x (sa.1 - d.bottom)) ∧
      (¬ d.top > 0 → ¬ d.bottom > 0 → d.left > 0 →
        s.contains_dock_area d sa = s.contains_point d.left d.left_start_y) ∧
      (¬ d.top > 0 → ¬ d.bottom > 0 → ¬ d.left > 0 → d.right > 0 →
        s.contains_dock_area d sa
          = s.contains_point (sa.2 - d.right) d.right_start_y) ∧
      (¬ d.top > 0 → ¬ d.bottom > 0 → ¬ d.left > 0 → ¬ d.right > 0 →
        s.contains_dock_area d sa = false) := by
  intro s d sa
  refine ⟨fun h1 => ⟨?_, fun d2 e1 e2 => ?_⟩, fun h1 h2 => ?_,
    fun h1 h2 h3 => ?_, fun h1 h2 h3 h4 => ?_, fun h1 h2 h3 h4 => ?_⟩ <;>
    simp [Screen.contains_dock_area, *]

/-- Witness for C7 at a concrete input: a dock area with both a top and a
bottom strip is decided by the top edge alone. -/
theorem contains_dock_area_spec_witness :
    (Screen.new { x := 0, y := 0, width := 100, height := 50 }).contains_dock_area
        { top := 5, top_start_x := 3, bottom := 7, bottom_start_x := 9,
          left := 0, left_start_y := 0, right := 0, right_start_y := 0 } (200, 300)
      = (Screen.new { x := 0, y := 0, width := 100, height := 50 }).contains_point 3 5 :=
  ((contains_dock_area_spec _ _ _).1 (by decide)).1

/-- The C1 configuration: a named output whose config sets `y` but not `x`. -/
def c1_config : Workspace :=
  { x := none, y := some 5, height := none, width := none,
    id := some 1, output_name := some ("M"), max_window_width := none }

/-- The C1 monitor: named `M`, reporting `y = 7`. -/
def c1_monitor : Monitor :=
  { name := "M", x := 1, y := 7, width_px := 100, height_px := 200 }

/-- Claim C1 (code bug): the claim says a present config `y` wins over the
monitor's `y`, but the source fills the `y` field from `wsc.x` as fallback
(`wsc.x.unwrap_or(monitor.y)`), so with `x` absent and `y = some 5` the
resolved `bbox.y` is the monitor's `7`, not the config's `5`. -/
theorem try_from_y_fallback_bug :
    c1_config.y = some 5 ∧ c1_monitor.y = 7 ∧
    Screen.try_from c1_config (some [c1_monitor]) =
      Except.ok
        { root := WindowHandle.MockHandle 0
          bbox := { x := 1, y := 7, width := 100, height := 200 }
          wsid := some 1
          max_window_width := none } :=
  ⟨rfl, rfl, rfl⟩

/-- The C2 oracle: three windows, all individually eligible, but the
attribute query for window 2 fails. -/
def c2_xw : XWrap :=
  { screens := []
    all_windows := Except.ok [1, 2, 3]
    window_attrs := fun h =>
      if h = 2 then none else some { map_state := 2, override_redirect := 0 }
    transient_for := fun _ => none
    window_name := fun _ => "w"
    translate := fun _ => none }

/-- Claim C2 (code bug): the claim says a failed per-window attribute query
excludes only that window and the other two still yield items, but the
source calls `.unwrap()` on the query result, so the whole enumeration
panics (modelled as `none`) instead of returning the two windows. -/
theorem find_all_windows_panics_on_query_failure :
    c2_xw.all_windows = Except.ok [1, 2, 3] ∧
    c2_xw.window_attrs 1 = some { map_state := 2, override_redirect := 0 } ∧
    c2_xw.window_attrs 2 = none ∧
    c2_xw.window_attrs 3 = some { map_state := 2, override_redirect := 0 } ∧
    managed_window (c2_xw.transient_for 1) { map_state := 2, override_redirect := 0 } = true ∧
    find_all_windows c2_xw = none :=
  ⟨rfl, rfl, rfl, rfl, rfl, rfl⟩

/-- Claim C5: with `output_name` unset and all four coordinates set, the
resolver succeeds for every topology value (so no topology query can matter),
with the literal bbox, `wsid` from the config's `id`, and `max_window_width`
carried through unchanged. -/
theorem try_from_literal_spec :
    ∀ (wsc : Workspace) (x y w h : Int),
      wsc.output_name = none → wsc.x = some x → wsc.y = some y →
      wsc.width = some w → wsc.height = some h →
      ∀ topology : Option (List Monitor),
        Screen.try_from wsc topology =
          Except.ok
            { root := WindowHandle.MockHandle 0
              bbox := { x := x, y := y, width := w, height := h }
              wsid := wsc.id
              max_window_width := wsc.max_window_width } := by
  intro wsc x y w h ho hx hy hw hh topology
  simp [Screen.try_from, ho, hx, hy, hw, hh]

/-- Witness for C5: the spec's concrete example, resolved against an
unavailable topology. -/
theorem try_from_literal_spec_witness :
    Screen.try_from
      { x := some 10, y := some 20, height := some 600, width := some 800,
        id := some 3, output_name := none, max_window_width := some { raw := 7 } }
      none =
      Except.ok
        { root := WindowHandle.MockHandle 0
          bbox := { x := 10, y := 20, width := 800, height := 600 }
          wsid := some 3
          max_window_width := some { raw := 7 } } :=
  try_from_literal_spec _ 10 20 800 600 rfl rfl rfl rfl rfl none

/-- Claim C6: with a transient owner, eligibility is exactly
`map_state = 2` (the viewable sentinel); without one, it is exactly
`override_redirect ≤ 0` and `map_state = 2`. -/
theorem managed_window_spec :
    ∀ (transient : Option Nat) (attrs : XWindowAttributes),
      (transient.isSome = true →
        (managed_window transient attrs = true ↔ attrs.map_state = 2)) ∧
      (transient = none →
        (managed_window transient attrs = true ↔
          (attrs.override_redirect ≤ 0 ∧ attrs.map_state = 2))) := by
  intro transient attrs
  cases transient <;> simp [managed_window]

/-- Witness for C6: a transient window with `override_redirect = 1` is still
eligible when viewable. -/
theorem managed_window_spec_witness :
    managed_window (some 7) { map_state := 2, override_redirect := 1 } = true :=
  ((managed_window_spec (some 7) { map_state := 2, override_redirect := 1 }).1 rfl).mpr rfl

/-- Claim C4: resolution fails exactly when either the output name is set and
the topology is unavailable or contains no monitor of that name, or the
output name is unset and some coordinate is missing; and in the named cases
the error is `TopologyUnavailable` / `MonitorNotFound` with no fallback to
literal coordinates, while the unnamed partial case is
`AmbiguousWorkspaceConfig`. -/
theorem try_from_error_spec :
    ∀ (wsc : Workspace) (topology : Option (List Monitor)),
      ((∃ e, Screen.try_from wsc topology = Except.error e) ↔
        ((∃ name, wsc.output_name = some name ∧
            (topology = none ∨
              ∃ ms, topology = some ms ∧ ∀ m ∈ ms, m.name ≠ name)) ∨
          (wsc.output_name = none ∧
            (wsc.x = none ∨ wsc.y = none ∨ wsc.width = none ∨ wsc.height = none)))) ∧
      (∀ name, wsc.output_name = some name → topology = none →
        Screen.try_from wsc topology = Except.error ScreenError.TopologyUnavailable) ∧
      (∀ name ms, wsc.output_name = some name → topology = some ms →
        (∀ m ∈ ms, m.name ≠ name) →
        Screen.try_from wsc topology = Except.error ScreenError.MonitorNotFound) ∧
      (wsc.output_name = none →
        (wsc.x = none ∨ wsc.y = none ∨ wsc.width = none ∨ wsc.height = none) →
        Screen.try_from wsc topology = Except.error ScreenError.AmbiguousWorkspaceConfig) := by
  intro wsc topology
  obtain ⟨X, Y, H, W, I, O, M⟩ := wsc
  refine ⟨?_, ?_, ?_, ?_⟩
  · cases O with
    | none =>
        cases X <;> cases Y <;> cases W <;> cases H <;>
          simp [Screen.try_from]
    | some name =>
        cases topology with
        | none => simp [Screen.try_from]
        | some ms =>
            cases hfind : ms.find? (fun monitor => monitor.name == name) with
            | none =>
                have hall := List.find?_eq_none.mp hfind
                simp only [beq_iff_eq] at hall
                simp [Screen.try_from, hfind]
                exact hall
            | some m =>
                have hmem := List.mem_of_find?_eq_some hfind
                have hp := List.find?_some hfind
                simp only [beq_iff_eq] at hp
                simp [Screen.try_from, hfind]
                exact ⟨m, hmem, hp⟩
  · intro name hO htop
    subst htop
    cases O <;> simp_all [Screen.try_from]
  · intro name ms hO htop hall
    subst htop
    cases O with
    | none => exact absurd hO (by simp)
    | some name2 =>
        have : name2 = name := by simpa using hO
        subst this
        have hfind : ms.find? (fun monitor => monitor.name == name2) = none := by
          rw [List.find?_eq_none]
          intro m hm
          simpa using hall m hm
        simp [Screen.try_from, hfind]
  · intro hO hmiss
    subst hO
    cases X <;> cases Y <;> cases W <;> cases H <;> simp_all [Screen.try_from]

/-- Witness for C4: the spec's named-output failure example, with all four
literal coordinates present, still fails with `MonitorNotFound`. -/
theorem try_from_error_spec_witness :
    Screen.try_from
      { x := some 1, y := some 2, height := some 3, width := some 4,
        id := none, output_name := some ("missing"), max_window_width := none }
      (some [{ name := "HDMI-1", x := 0, y := 0, width_px := 1920, height_px := 1080 }]) =
      Except.error ScreenError.MonitorNotFound :=
  (try_from_error_spec _ _).2.2.1 "missing"
    [{ name := "HDMI-1", x := 0, y := 0, width_px := 1920, height_px := 1080 }]
    rfl rfl (by decide)

/-- With the latch already set, a call returns only the translated item. -/
theorem get_next_events_done (xw : XWrap) (e : Nat) :
    get_next_events xw e { setup_done := true } =
      some ((xw.translate e).toList, { setup_done := true }) := rfl

/-- With the latch already set, every call of a run returns only its
translated item and the latch stays set. -/
theorem runCalls_done (calls : List (XWrap × Nat)) :
    runCalls calls { setup_done := true } =
      some (calls.map (fun c => (c.1.translate c.2).toList), { setup_done := true }) := by
  induction calls with
  | nil => rfl
  | cons c cs ih => simp [runCalls, get_next_events_done, ih]

/-- Claim C3: over any run of N ≥ 1 sequential calls on one adapter from the
initial (unlatched) state, the bootstrap batch is a prefix of the first
call's result only; every later call's result is exactly the translation of
its own raw event, so no bootstrap item is ever re-emitted. -/
theorem bootstrap_only_first_call :
    ∀ (xw : XWrap) (e : Nat) (es : List Nat) (boot : List EventQueueItem),
      initial_events xw = some boot →
      runCalls ((e :: es).map (fun ev => (xw, ev))) { setup_done := false } =
        some ((boot ++ (xw.translate e).toList)
            :: es.map (fun ev => (xw.translate ev).toList), { setup_done := true }) := by
  intro xw e es boot hb
  simp [runCalls, get_next_events, hb, runCalls_done, List.map_map, Function.comp]

/-- The C3 oracle: one screen, no windows, no translatable live events. -/
def c3_xw : XWrap :=
  { screens := [{ x_org := 0, y_org := 0, width := 800, height := 600 }]
    all_windows := Except.ok []
    window_attrs := fun _ => none
    transient_for := fun _ => none
    window_name := fun _ => "a"
    translate := fun _ => none }

/-- Witness for C3: three sequential calls; only the first carries the
bootstrap `ScreenCreate`. -/
theorem bootstrap_only_first_call_witness :
    runCalls [(c3_xw, 0), (c3_xw, 1), (c3_xw, 2)] { setup_done := false } =
      some ([[EventQueueItem.ScreenCreate (Screen.from_xinerama
                { x_org := 0, y_org := 0, width := 800, height := 600 })], [], []],
        { setup_done := true }) :=
  bootstrap_only_first_call c3_xw 0 [1, 2]
    [EventQueueItem.ScreenCreate (Screen.from_xinerama
      { x_org := 0, y_org := 0, width := 800, height := 600 })] rfl

/-- Claim C9: in the first call's batch the positions split into three
consecutive blocks: first all bootstrap `ScreenCreate` items, then all
bootstrap `WindowCreate` items, then the live-translated item (if any). -/
theorem first_batch_ordering :
    ∀ (xw : XWrap) (e : Nat) (ws : List Window) (batch : List EventQueueItem)
      (ps : ProcessState),
      find_all_windows xw = some ws →
      get_next_events xw e { setup_done := false } = some (batch, ps) →
      batch.take xw.screens.length =
        xw.screens.map (fun s => EventQueueItem.ScreenCreate (Screen.from_xinerama s)) ∧
      (batch.drop xw.screens.length).take ws.length =
        ws.map (fun w => EventQueueItem.WindowCreate w) ∧
      batch.drop (xw.screens.length + ws.length) = (xw.translate e).toList := by
  intro xw e ws batch ps hws hbatch
  have hb : batch =
      xw.screens.map (fun s => EventQueueItem.ScreenCreate (Screen.from_xinerama s))
        ++ (ws.map (fun w => EventQueueItem.WindowCreate w) ++ (xw.translate e).toList) := by
    simp [get_next_events, initial_events, hws] at hbatch
    exact hbatch.1.symm
  subst hb
  refine ⟨?_, ?_, ?_⟩
  · rw [List.take_left' (by simp)]
  · rw [List.drop_left' (by simp), List.take_left' (by simp)]
  · rw [← List.append_assoc, List.drop_left' (by simp)]

/-- The C9 oracle: one screen, one eligible window, and a live event that
translates to an item. -/
def c9_xw : XWrap :=
  { screens := [{ x_org := 0, y_org := 0, width := 800, height := 600 }]
    all_windows := Except.ok [5]
    window_attrs := fun _ => some { map_state := 2, override_redirect := 0 }
    transient_for := fun _ => none
    window_name := fun _ => "t"
    translate := fun _ => some (EventQueueItem.OtherLifecycle 0) }

/-- Witness for C9 on a concrete first batch of three items. -/
theorem first_batch_ordering_witness :
    ([EventQueueItem.ScreenCreate (Screen.from_xinerama
          { x_org := 0, y_org := 0, width := 800, height := 600 }),
      EventQueueItem.WindowCreate (Window.new (WindowHandle.XlibHandle 5) "t"),
      EventQueueItem.OtherLifecycle 0] : List EventQueueItem).take 1 =
        [EventQueueItem.ScreenCreate (Screen.from_xinerama
          { x_org := 0, y_org := 0, width := 800, height := 600 })] ∧
    (([EventQueueItem.ScreenCreate (Screen.from_xinerama
          { x_org := 0, y_org := 0, width := 800, height := 600 }),
      EventQueueItem.WindowCreate (Window.new (WindowHandle.XlibHandle 5) "t"),
      EventQueueItem.OtherLifecycle 0] : List EventQueueItem).drop 1).take 1 =
        [EventQueueItem.WindowCreate (Window.new (WindowHandle.XlibHandle 5) "t")] ∧
    ([EventQueueItem.ScreenCreate (Screen.from_xinerama
          { x_org := 0, y_org := 0, width := 800, height := 600 }),
      EventQueueItem.WindowCreate (Window.new (WindowHandle.XlibHandle 5) "t"),
      EventQueueItem.OtherLifecycle 0] : List EventQueueItem).drop 2 =
        [EventQueueItem.OtherLifecycle 0] :=
  first_batch_ordering c9_xw 0 [Window.new (WindowHandle.XlibHandle 5) "t"]
    [EventQueueItem.ScreenCreate (Screen.from_xinerama
        { x_org := 0, y_org := 0, width := 800, height := 600 }),
      EventQueueItem.WindowCreate (Window.new (WindowHandle.XlibHandle 5) "t"),
      EventQueueItem.OtherLifecycle 0]
    { setup_done := true } rfl rfl

/-- Claim C10: the latch is process-wide.  Once any adapter's first call has
run from the unlatched state, the resulting state is latched, and every
further run — on any list of adapter instances — yields only translated
items, never a bootstrap batch. -/
theorem latch_process_wide :
    ∀ (xwA : XWrap) (eA : Nat) (bA : List EventQueueItem) (psA : ProcessState),
      get_next_events xwA eA { setup_done := false } = some (bA, psA) →
      psA.setup_done = true ∧
      ∀ calls : List (XWrap × Nat),
        runCalls calls psA =
          some (calls.map (fun c => (c.1.translate c.2).toList), psA) := by
  intro xwA eA bA psA h
  have hps : psA = { setup_done := true } := by
    cases hinit : initial_events xwA <;> simp [get_next_events, hinit] at h
    exact h.2.symm
  subst hps
  exact ⟨rfl, fun calls => runCalls_done calls⟩

/-- The C10 "second adapter" oracle: it has a screen of its own to announce,
yet emits nothing once the latch is set. -/
def c10_xwB : XWrap :=
  { screens := [{ x_org := 3, y_org := 4, width := 10, height := 10 }]
    all_windows := Except.ok []
    window_attrs := fun _ => none
    transient_for := fun _ => none
    window_name := fun _ => "b"
    translate := fun _ => none }

/-- Witness for C10: after `c3_xw`-style bootstrap by a first adapter, a call
on a different adapter yields an empty batch, not that adapter's screen. -/
theorem latch_process_wide_witness :
    runCalls [(c10_xwB, 1)] { setup_done := true } =
      some ([[]], { setup_done := true }) :=
  (latch_process_wide c9_xw 0
    [EventQueueItem.ScreenCreate (Screen.from_xinerama
        { x_org := 0, y_org := 0, width := 800, height := 600 }),
      EventQueueItem.WindowCreate (Window.new (WindowHandle.XlibHandle 5) "t"),
      EventQueueItem.OtherLifecycle 0]
    { setup_done := true } rfl).2 [(c10_xwB, 1)]

end Leftwm
